import Mathlib

/-!
Verification of the `skillsmp` CLI (src/src/skillsmp/__init__.py) against its
natural-language specification.  The Python source is shallowly embedded:
pure helpers become Lean functions, the mutation of `os.environ` becomes
explicit association-list passing, and process exits (`SystemExit`) become
explicit result constructors carrying the exit code and the message.
All definitions are executable.
-/

namespace Skillsmp

/-! ## Python string primitives

Models of the CPython behaviours the source relies on.  Whitespace is the
ASCII whitespace set (the source is only ever exercised on ASCII input;
the unicode extensions of `str.strip` and `int` are out of scope). -/

def isPySpace (c : Char) : Bool :=
  c = ' ' || c = '\t' || c = '\n' || c = '\x0d' || c = '\x0b' || c = '\x0c'

/-- `pre` is a prefix of the second list (character-by-character). -/
def isPrefixChars : List Char → List Char → Bool
  | [], _ => true
  | _ :: _, [] => false
  | c :: cs, d :: ds => c = d && isPrefixChars cs ds

/-- Python `s.startswith(pre)`. -/
def pyStartsWith (s pre : String) : Bool :=
  isPrefixChars pre.toList s.toList

/-- Split a character list at the first `=`: the part before it, and the part
after it (`none` when there is no `=`).  This is `str.partition("=")`. -/
def breakAtEq : List Char → List Char × Option (List Char)
  | [] => ([], none)
  | c :: cs =>
    if c = '=' then ([], some cs)
    else
      let r := breakAtEq cs
      (c :: r.1, r.2)

/-- Python `str.strip()` (no argument): remove whitespace from both ends. -/
def pyStrip (s : String) : String :=
  ⟨((s.toList.dropWhile isPySpace).reverse.dropWhile isPySpace).reverse⟩

/-- Python `str.strip(chars)`: remove any of the given characters from both ends. -/
def pyStripChars (chars : List Char) (s : String) : String :=
  ⟨((s.toList.dropWhile (chars.contains ·)).reverse.dropWhile (chars.contains ·)).reverse⟩

/-- Digit run of a Python integer literal after the first digit: digits with
single underscores allowed between digits (`1_0` is fine, `1__0`, `1_` are not).
`acc` is the value of the digits consumed so far. -/
def pyDigitsCore : Nat → List Char → Option Nat
  | acc, [] => some acc
  | acc, c :: cs =>
    if c.isDigit then pyDigitsCore (acc * 10 + (c.toNat - 48)) cs
    else if c = '_' then
      match cs with
      | [] => none
      | d :: cs2 =>
        if d.isDigit then pyDigitsCore ((acc * 10 + (d.toNat - 48))) cs2 else none
    else none

/-- Python `int(s)` for a string argument: optional surrounding whitespace,
optional sign, then a digit run with single underscores between digits.
Returns `none` where CPython raises `ValueError`. -/
def pyIntOfString (s : String) : Option Int :=
  let cs := ((s.toList.dropWhile isPySpace).reverse.dropWhile isPySpace).reverse
  match cs with
  | [] => none
  | c :: rest =>
    let signed : Bool × List Char :=
      if c = '-' then (true, rest)
      else if c = '+' then (false, rest)
      else (false, c :: rest)
    match signed with
    | (_, []) => none
    | (neg, d :: ds) =>
      if d.isDigit then
        (pyDigitsCore (d.toNat - 48) ds).map (fun n => if neg then -(n : Int) else (n : Int))
      else none

/-! ## Environment model and the credential resolver

`os.environ` is modelled as an association list with first-match lookup;
`os.environ[k] = v` on a key known to be absent appends. -/

abbrev Env := List (String × String)

def envGet (e : Env) (k : String) : Option String :=
  match e with
  | [] => none
  | (k2, v) :: rest => if k2 = k then some v else envGet rest k

/-- Python `key in os.environ`. -/
def envContains (e : Env) (k : String) : Bool :=
  (envGet e k).isSome

/-- One iteration of the loop body of `_load_env_file` on a raw line of `~/.env`:

```python
line = line.strip()
if not line or line.startswith("#"): continue
if line.startswith("export "): line = line[7:]
key, _, val = line.partition("=")
key = key.strip()
val = val.strip().strip("\"'")
if key and key not in os.environ: os.environ[key] = val
``` -/
def loadEnvLine (env : Env) (rawLine : String) : Env :=
  let line := pyStrip rawLine
  if line = "" || pyStartsWith line "#" then env
  else
    let line := if pyStartsWith line "export " then line.drop 7 else line
    let parts := breakAtEq line.toList
    let key := pyStrip ⟨parts.1⟩
    let rawVal : String := match parts.2 with | none => "" | some cs => ⟨cs⟩
    let val := pyStripChars ['"', '\x27'] (pyStrip rawVal)
    if key ≠ "" && !envContains env key then env ++ [(key, val)]
    else env

/-- `_load_env_file`: source every `KEY=VALUE` line of `~/.env` (given here as
its list of lines; `none` models the file being absent) into the environment. -/
def loadEnvFile (env : Env) (lines : List String) : Env :=
  lines.foldl loadEnvLine env

/-- Outcome of `_get_api_key`: either the key together with the (possibly
extended) process environment, or a `SystemExit` with the exit code and the
message printed to standard error. -/
inductive KeyResult where
  | ok (key : String) (env : Env)
  | fail (exitCode : Nat) (stderrMsg : String)
  deriving DecidableEq, Repr

/-- `_get_api_key`: look up `SKILLSMP_API_KEY`; when unset (or empty) source
the dotfile (`dotfile = none` models `~/.env` not existing) and look again;
when still unset print to standard error and raise `SystemExit(1)`.
No network request is made on this path. -/
def getApiKey (env : Env) (dotfile : Option (List String)) : KeyResult :=
  let key := (envGet env "SKILLSMP_API_KEY").getD ""
  if key ≠ "" then .ok key env
  else
    let env2 := match dotfile with
      | none => env
      | some lines => loadEnvFile env lines
    let key2 := (envGet env2 "SKILLSMP_API_KEY").getD ""
    if key2 ≠ "" then .ok key2 env2
    else .fail 1 "skillsmp: SKILLSMP_API_KEY not set. Export it or add to ~/.env."

/-! ## Star-count formatter

`_format_stars` renders `f"{n / 1000:.1f}k"` for counts of at least 1000.
In Python `n / 1000` is binary64 true division: the rational `n/1000`
rounded to the nearest double, ties to even.  `%.1f` then rounds that double
to the nearest tenth; a tie is impossible there because a dyadic rational is
never an odd multiple of `1/20`.  True division raises `OverflowError`
instead of producing an infinity when the rounded quotient reaches `2^1024`.
The pipeline below performs both roundings exactly on integers. -/

/-- The validated configuration `_parse_args` returns (the result dict). -/
structure ParsedArgs where
  mode : String
  query : String
  limit : Int
  page : Int
  sort : String
  json : Bool
  plain : Bool
  deriving DecidableEq, Repr

/-- The mutable locals of the scan loop of `_parse_args`; `limit`, `page` and
`sort` hold the raw value token until validation, as in the source. -/
structure ScanState where
  mode : String := "search"
  limit : Option String := none
  page : Option String := none
  sort : Option String := none
  json : Bool := false
  plain : Bool := false
  query : List String := []
  deriving DecidableEq, Repr

/-- Result of `_parse_args`: a parsed configuration or one of its four exits.
Full help and the version line print to standard output and exit 0; the
concise help and every `_die` message print to standard error and exit 2
(`_die` appends a fixed "try help" line). -/
inductive ParseResult where
  | ok (args : ParsedArgs)
  | help
  | version
  | conciseHelp
  | usageError (msg : String)
  deriving DecidableEq, Repr

/-- Exit code of a parse outcome (`none`: the parse returned normally). -/
def ParseResult.exitCode : ParseResult → Option Nat
  | .ok _ => none
  | .help | .version => some 0
  | .conciseHelp | .usageError _ => some 2

/-- An early exit of the scan loop: `--help`/`-h`, `--version`, or `_die`. -/
inductive ScanStop where
  | help
  | version
  | usageError (msg : String)
  deriving DecidableEq, Repr

/-- Outcome of the scan loop: fell through to validation, or exited early. -/
inductive ScanResult where
  | done (st : ScanState)
  | stop (e : ScanStop)
  deriving DecidableEq, Repr

/-- The `while` loop of `_parse_args` (source lines 350–389). -/
def scanLoop (st : ScanState) : List String → ScanResult
  | [] => .done st
  | arg :: rest =>
    if arg = "-h" || arg = "--help" then .stop .help
    else if arg = "--version" then .stop .version
    else if arg = "-a" || arg = "--ai" then scanLoop { st with mode := "ai" } rest
    else if arg = "-j" || arg = "--json" then scanLoop { st with json := true } rest
    else if arg = "--plain" then scanLoop { st with plain := true } rest
    else if arg = "-n" || arg = "--limit" then
      match rest with
      | [] => .stop (.usageError s!"flag {arg} requires a value")
      | v :: rest2 => scanLoop { st with limit := some v } rest2
    else if arg = "-s" || arg = "--sort" then
      match rest with
      | [] => .stop (.usageError s!"flag {arg} requires a value")
      | v :: rest2 => scanLoop { st with sort := some v } rest2
    else if arg = "-p" || arg = "--page" then
      match rest with
      | [] => .stop (.usageError s!"flag {arg} requires a value")
      | v :: rest2 => scanLoop { st with page := some v } rest2
    else if arg = "--" then .done { st with query := st.query ++ rest }
    else if pyStartsWith arg "-" then .stop (.usageError s!"unknown flag: {arg}")
    else .done { st with query := st.query ++ arg :: rest }
termination_by structural l => l

/-- Lines 399–405: when a raw `--limit` value is present, `int(...)` it
(`ValueError` → die) and require `1 <= limit <= 100` (else die). -/
def limitStep (o : Option String) : Except String (Option Int) :=
  match o with
  | none => .ok none
  | some raw =>
    match pyIntOfString raw with
    | none => .error s!"--limit must be a number (got: {raw})"
    | some l =>
      if !(1 ≤ l && l ≤ 100) then .error s!"--limit must be 1-100 (got: {l})"
      else .ok (some l)

/-- Lines 407–411: when a raw `--page` value is present, `int(...)` it
(`ValueError` → die).  There is no range check on the parsed page. -/
def pageStep (o : Option String) : Except String (Option Int) :=
  match o with
  | none => .ok none
  | some raw =>
    match pyIntOfString raw with
    | none => .error s!"--page must be a number (got: {raw})"
    | some p => .ok (some p)

/-- Lines 413–414: a present `--sort` value must be `stars` or `recent`;
the result is the die message, when any. -/
def sortCheck (o : Option String) : Option String :=
  match o with
  | none => none
  | some s =>
    if s ≠ "stars" && s ≠ "recent" then
      some s!"--sort must be \x27stars\x27 or \x27recent\x27 (got: {s})"
    else none

/-- The post-scan validation and assembly of `_parse_args` (lines 391–427),
in source order: empty query, `--json`/`--plain` exclusion, limit parse and
range, page parse, sort enum, then the AI mode-mismatch check. -/
def validate (st : ScanState) : ParseResult :=
  if st.query = [] then .conciseHelp
  else if st.json && st.plain then .usageError "--json and --plain are mutually exclusive"
  else
    match limitStep st.limit with
    | .error m => .usageError m
    | .ok limitVal =>
      match pageStep st.page with
      | .error m => .usageError m
      | .ok pageVal =>
        match sortCheck st.sort with
        | some m => .usageError m
        | none =>
          if st.mode = "ai" && (limitVal.isSome || pageVal.isSome || st.sort.isSome) then
            .usageError "--limit, --page, --sort do not apply to --ai search"
          else
            .ok {
              mode := st.mode
              query := String.intercalate " " st.query
              limit := limitVal.getD 10
              page := pageVal.getD 1
              sort := st.sort.getD "stars"
              json := st.json
              plain := st.plain
            }

/-- `_parse_args`: run the scan loop from the initial state, then validate. -/
def parseArgs (argv : List String) : ParseResult :=
  match scanLoop {} argv with
  | .stop .help => .help
  | .stop .version => .version
  | .stop (.usageError m) => .usageError m
  | .done st => validate st

/-! ## Helper lemmas -/

lemma envGet_append_left {e : Env} {k : String} {v : String} (l : Env)
    (h : envGet e k = some v) : envGet (e ++ l) k = some v := by
  induction e with
  | nil => simp [envGet] at h
  | cons p rest ih =>
    obtain ⟨k2, v2⟩ := p
    simp only [List.cons_append, envGet] at h ⊢
    by_cases hk : k2 = k
    · simpa [hk] using h
    · rw [if_neg hk] at h ⊢
      exact ih h

set_option maxHeartbeats 1000000 in
lemma loadEnvLine_extends (env : Env) (line : String) :
    ∃ t, loadEnvLine env line = env ++ t := by
  unfold loadEnvLine
  dsimp only
  split
  · exact ⟨[], by simp⟩
  · split
    · split
      · exact ⟨_, rfl⟩
      · exact ⟨[], by simp⟩
    · split
      · exact ⟨_, rfl⟩
      · exact ⟨[], by simp⟩

lemma loadEnvLine_preserves {env : Env} {k v : String} (line : String)
    (h : envGet env k = some v) : envGet (loadEnvLine env line) k = some v := by
  obtain ⟨t, ht⟩ := loadEnvLine_extends env line
  rw [ht]
  exact envGet_append_left t h

lemma loadEnvFile_preserves {env : Env} {k v : String} (lines : List String)
    (h : envGet env k = some v) : envGet (loadEnvFile env lines) k = some v := by
  induction lines generalizing env with
  | nil => exact h
  | cons line rest ih =>
    simp only [loadEnvFile, List.foldl_cons] at *
    exact ih (loadEnvLine_preserves line h)

lemma ne_flag_of_not_dash {t s : String} (hs : pyStartsWith s "-" = true)
    (h : pyStartsWith t "-" = false) : t ≠ s := by
  rintro rfl
  rw [hs] at h
  cases h

/-- A token that does not start with `-` halts the scan: it and everything
after it become the query. -/
lemma scanLoop_nonflag (st : ScanState) (t : String) (rest : List String)
    (h : pyStartsWith t "-" = false) :
    scanLoop st (t :: rest) = .done { st with query := st.query ++ t :: rest } := by
  have h1 : t ≠ "-h" := ne_flag_of_not_dash (by decide) h
  have h2 : t ≠ "--help" := ne_flag_of_not_dash (by decide) h
  have h3 : t ≠ "--version" := ne_flag_of_not_dash (by decide) h
  have h4 : t ≠ "-a" := ne_flag_of_not_dash (by decide) h
  have h5 : t ≠ "--ai" := ne_flag_of_not_dash (by decide) h
  have h6 : t ≠ "-j" := ne_flag_of_not_dash (by decide) h
  have h7 : t ≠ "--json" := ne_flag_of_not_dash (by decide) h
  have h8 : t ≠ "--plain" := ne_flag_of_not_dash (by decide) h
  have h9 : t ≠ "-n" := ne_flag_of_not_dash (by decide) h
  have h10 : t ≠ "--limit" := ne_flag_of_not_dash (by decide) h
  have h11 : t ≠ "-s" := ne_flag_of_not_dash (by decide) h
  have h12 : t ≠ "--sort" := ne_flag_of_not_dash (by decide) h
  have h13 : t ≠ "-p" := ne_flag_of_not_dash (by decide) h
  have h14 : t ≠ "--page" := ne_flag_of_not_dash (by decide) h
  have h15 : t ≠ "--" := ne_flag_of_not_dash (by decide) h
  rw [scanLoop.eq_def]
  simp [h1, h2, h3, h4, h5, h6, h7, h8, h9, h10, h11, h12, h13, h14, h15, h]

/-- The literal `--` halts the scan: everything after it becomes the query. -/
lemma scanLoop_dashdash (st : ScanState) (rest : List String) :
    scanLoop st ("--" :: rest) = .done { st with query := st.query ++ rest } := by
  rw [scanLoop.eq_def]
  simp

/-- When the scan falls through, `_parse_args` is the validation step. -/
lemma parseArgs_done {argv : List String} {st : ScanState}
    (h : scanLoop {} argv = .done st) : parseArgs argv = validate st := by
  simp [parseArgs, h]

lemma limitStep_ok_isSome {o : Option String} {lv : Option Int}
    (h : limitStep o = .ok lv) : lv.isSome = o.isSome := by
  cases o with
  | none =>
    have h0 : (Except.ok (none : Option Int) : Except String (Option Int)) = .ok lv := h
    injection h0 with h0'
    rw [← h0']
    rfl
  | some raw =>
    simp only [limitStep] at h
    cases hpy : pyIntOfString raw with
    | none => rw [hpy] at h; injection h
    | some l =>
      rw [hpy] at h
      dsimp only at h
      split at h
      · injection h
      · injection h with h'
        rw [← h']
        rfl

lemma pageStep_ok_isSome {o : Option String} {pv : Option Int}
    (h : pageStep o = .ok pv) : pv.isSome = o.isSome := by
  cases o with
  | none =>
    have h0 : (Except.ok (none : Option Int) : Except String (Option Int)) = .ok pv := h
    injection h0 with h0'
    rw [← h0']
    rfl
  | some raw =>
    simp only [pageStep] at h
    cases hpy : pyIntOfString raw with
    | none => rw [hpy] at h; injection h
    | some p =>
      rw [hpy] at h
      injection h with h'
      rw [← h']
      rfl

/-- With a query present and both output toggles on, validation dies with the
mutual-exclusion message. -/
lemma validate_json_plain (st : ScanState) (hq : st.query ≠ [])
    (hj : st.json = true) (hp : st.plain = true) :
    validate st = .usageError "--json and --plain are mutually exclusive" := by
  simp [validate, hq, hj, hp]

/-- With a query present and no option flag set, validation succeeds and
fills in every default. -/
lemma validate_defaults (st : ScanState) (hq : st.query ≠ [])
    (hl : st.limit = none) (hp : st.page = none) (hs : st.sort = none)
    (hj : st.json = false) (hpl : st.plain = false) :
    validate st =
      .ok ⟨st.mode, String.intercalate " " st.query, 10, 1, "stars", false, false⟩ := by
  simp [validate, limitStep, pageStep, sortCheck, hq, hl, hp, hs, hj, hpl]

/-- Page provenance of an accepted parse: the default 1 when no `--page` was
given, otherwise exactly the integer parsed from the raw value. -/
lemma validate_ok_page {st : ScanState} {a : ParsedArgs} (h : validate st = .ok a) :
    (st.page = none ∧ a.page = 1) ∨
      ∃ raw, st.page = some raw ∧ pyIntOfString raw = some a.page := by
  unfold validate at h
  split at h
  · injection h
  split at h
  · injection h
  split at h
  · injection h
  rename_i limitVal heq1
  split at h
  · injection h
  rename_i pageVal heq2
  split at h
  · injection h
  rename_i heq3
  split at h
  · injection h
  injection h with h'
  cases hpage : st.page with
  | none =>
    left
    refine ⟨rfl, ?_⟩
    rw [hpage] at heq2
    have h0 : (Except.ok (none : Option Int) : Except String (Option Int)) = .ok pageVal := heq2
    injection h0 with h0'
    rw [← h']
    simp [← h0']
  | some raw =>
    right
    refine ⟨raw, rfl, ?_⟩
    rw [hpage] at heq2
    simp only [pageStep] at heq2
    cases hpy : pyIntOfString raw with
    | none => rw [hpy] at heq2; injection heq2
    | some p =>
      rw [hpy] at heq2
      injection heq2 with h2'
      rw [← h']
      simp [← h2']

/-- A present raw `--limit` value passes its own validation. -/
def limitRangeOk : Option String → Prop
  | none => True
  | some raw => ∃ l : Int, pyIntOfString raw = some l ∧ 1 ≤ l ∧ l ≤ 100

/-- A present raw `--page` value parses as an integer. -/
def pageNumOk : Option String → Prop
  | none => True
  | some raw => ∃ p : Int, pyIntOfString raw = some p

/-- A present raw `--sort` value is one of the two accepted keys. -/
def sortEnumOk : Option String → Prop
  | none => True
  | some s => s = "stars" ∨ s = "recent"

/-- In AI mode with any of limit/page/sort set (and a query present),
validation always dies with some usage message — it never accepts. -/
lemma validate_ai_conflict (st : ScanState) (hq : st.query ≠ []) (hm : st.mode = "ai")
    (hset : (st.limit.isSome || st.page.isSome || st.sort.isSome) = true) :
    ∃ m, validate st = .usageError m := by
  unfold validate
  rw [if_neg hq]
  by_cases hjp : (st.json && st.plain) = true
  · rw [if_pos hjp]
    exact ⟨_, rfl⟩
  · rw [if_neg hjp]
    cases hLS : limitStep st.limit with
    | error m => exact ⟨m, rfl⟩
    | ok limitVal =>
      cases hPS : pageStep st.page with
      | error m => exact ⟨m, rfl⟩
      | ok pageVal =>
        cases hSC : sortCheck st.sort with
        | some m => exact ⟨m, rfl⟩
        | none =>
          have hcond :
              (decide (st.mode = "ai") &&
                (limitVal.isSome || pageVal.isSome || st.sort.isSome)) = true := by
            rw [limitStep_ok_isSome hLS, pageStep_ok_isSome hPS, hm]
            simpa using hset
          dsimp only
          rw [if_pos hcond]
          exact ⟨_, rfl⟩

/-- In AI mode with any of limit/page/sort set, a query present, the toggles
compatible and every flag value individually valid, validation dies with
exactly the mode-mismatch message. -/
lemma validate_ai_conflict_msg (st : ScanState) (hq : st.query ≠ []) (hm : st.mode = "ai")
    (hset : (st.limit.isSome || st.page.isSome || st.sort.isSome) = true)
    (hjp : (st.json && st.plain) = false)
    (hl : limitRangeOk st.limit) (hp : pageNumOk st.page) (hs : sortEnumOk st.sort) :
    validate st = .usageError "--limit, --page, --sort do not apply to --ai search" := by
  unfold validate
  rw [if_neg hq, if_neg (by simp [hjp])]
  obtain ⟨lv, hLS⟩ : ∃ lv, limitStep st.limit = .ok lv := by
    cases hL : st.limit with
    | none => exact ⟨none, rfl⟩
    | some raw =>
      rw [hL] at hl
      obtain ⟨l, hpy, h1, h2⟩ := hl
      exact ⟨some l, by simp [limitStep, hpy, h1, h2]⟩
  obtain ⟨pv, hPS⟩ : ∃ pv, pageStep st.page = .ok pv := by
    cases hP : st.page with
    | none => exact ⟨none, rfl⟩
    | some raw =>
      rw [hP] at hp
      obtain ⟨p, hpy⟩ := hp
      exact ⟨some p, by simp [pageStep, hpy]⟩
  have hSC : sortCheck st.sort = none := by
    cases hS : st.sort with
    | none => rfl
    | some s =>
      rw [hS] at hs
      rcases hs with h | h <;> simp [sortCheck, h]
  rw [hLS]
  dsimp only
  rw [hPS]
  dsimp only
  rw [hSC]
  dsimp only
  have hcond :
      (decide (st.mode = "ai") && (lv.isSome || pv.isSome || st.sort.isSome)) = true := by
    rw [limitStep_ok_isSome hLS, pageStep_ok_isSome hPS, hm]
    simpa using hset
  rw [if_pos hcond]

/-! ## Claims -/

/-- C1: the spec and the repo's own test suite say that reading the dotfile
imports only the recognized variable `SKILLSMP_API_KEY`; the code instead
imports every `KEY=VALUE` assignment whose key is not already present.  At
the exact input of test `test_dotenv_only_loads_api_key_not_unrelated_variables`
(`OTHER_VAR=leak` and `SKILLSMP_API_KEY=ok` in the dotfile, neither variable
in the environment), `OTHER_VAR` does appear in the environment afterwards. -/
theorem c1_dotfile_imports_unrelated_var :
    envGet (loadEnvFile [] ["OTHER_VAR=leak", "SKILLSMP_API_KEY=ok"]) "OTHER_VAR" =
      some "leak" ∧
    getApiKey [] (some ["OTHER_VAR=leak", "SKILLSMP_API_KEY=ok"]) =
      .ok "ok" [("OTHER_VAR", "leak"), ("SKILLSMP_API_KEY", "ok")] := by
  constructor
  · decide
  · decide

/-- C2: the claim (with the spec's exit-code table and the repo's test
`test_missing_api_key_exits_2`) says an unresolved credential terminates with
the usage exit status 2; the code prints the actionable message to standard
error and attempts no request, but raises `SystemExit(1)`.  Evaluated with
the key absent from the environment and the dotfile missing or empty. -/
theorem c2_missing_key_exit_code :
    getApiKey [] none =
      .fail 1 "skillsmp: SKILLSMP_API_KEY not set. Export it or add to ~/.env." ∧
    getApiKey [] (some []) =
      .fail 1 "skillsmp: SKILLSMP_API_KEY not set. Export it or add to ~/.env." := by
  constructor
  · decide
  · decide

/-- C3 (counterexample): the parser accepts `--page 0` and returns page = 0,
which is not ≥ 1. -/
theorem c3_counterexample :
    parseArgs ["--page", "0", "q"] = .ok ⟨"search", "q", 10, 0, "stars", false, false⟩ ∧
    ¬(1 ≤ (0 : Int)) := by
  constructor
  · decide
  · decide

/-- C3 (amended): an accepted parse carries as its page field exactly the
integer parsed from the raw `--page` value — any integer, with no lower
bound — or the default 1 when no page flag was given. -/
theorem c3_page_any_integer (argv : List String) (a : ParsedArgs)
    (h : parseArgs argv = .ok a) :
    ∃ st, scanLoop {} argv = .done st ∧
      ((st.page = none ∧ a.page = 1) ∨
        ∃ raw, st.page = some raw ∧ pyIntOfString raw = some a.page) := by
  unfold parseArgs at h
  cases hscan : scanLoop {} argv with
  | stop e =>
    rw [hscan] at h
    cases e <;> simp at h
  | done st =>
    rw [hscan] at h
    dsimp only at h
    exact ⟨st, rfl, validate_ok_page h⟩

/-- C3 (witness): the amended theorem applied at `--page 7 q`. -/
theorem c3_page_any_integer_witness :
    ∃ st, scanLoop {} ["--page", "7", "q"] = .done st ∧
      ((st.page = none ∧
          (ParsedArgs.mk "search" "q" 10 7 "stars" false false).page = 1) ∨
        ∃ raw, st.page = some raw ∧
          pyIntOfString raw = some (ParsedArgs.mk "search" "q" 10 7 "stars" false false).page) :=
  c3_page_any_integer ["--page", "7", "q"] ⟨"search", "q", 10, 7, "stars", false, false⟩
    (by decide)

/-- C4: whenever the scan completes with both the json and the plain toggle
set and query tokens present — in either order, whatever else was given —
parsing fails with the mutual-exclusion message naming both flags and the
usage exit status 2. -/
theorem c4_json_plain_exclusive :
    (∀ (argv : List String) (st : ScanState),
        scanLoop {} argv = .done st → st.query ≠ [] → st.json = true → st.plain = true →
          parseArgs argv = .usageError "--json and --plain are mutually exclusive" ∧
          (parseArgs argv).exitCode = some 2) ∧
    parseArgs ["--json", "--plain", "q"] =
      .usageError "--json and --plain are mutually exclusive" ∧
    parseArgs ["--plain", "--json", "q"] =
      .usageError "--json and --plain are mutually exclusive" := by
  refine ⟨?_, by decide, by decide⟩
  intro argv st hscan hq hj hp
  have h := parseArgs_done hscan
  rw [h, validate_json_plain st hq hj hp]
  exact ⟨rfl, rfl⟩

/-- C4 (witness): the general statement applied at `--json --plain hello`. -/
theorem c4_json_plain_exclusive_witness :
    parseArgs ["--json", "--plain", "hello"] =
      .usageError "--json and --plain are mutually exclusive" ∧
    (parseArgs ["--json", "--plain", "hello"]).exitCode = some 2 :=
  c4_json_plain_exclusive.1 ["--json", "--plain", "hello"]
    ⟨"search", none, none, none, true, true, ["hello"]⟩ (by decide) (by decide) rfl rfl

/-- C5: the scan halts at the first token not starting with `-` (that token
and everything after it, flags included, become the query), halts at a
literal `--` (everything after becomes the query verbatim), and in
particular `hello --ai --json` parses as keyword mode with query
`"hello --ai --json"`. -/
theorem c5_first_nonflag_halts :
    (∀ (st : ScanState) (t : String) (rest : List String),
        pyStartsWith t "-" = false →
          scanLoop st (t :: rest) = .done { st with query := st.query ++ t :: rest }) ∧
    (∀ (st : ScanState) (rest : List String),
        scanLoop st ("--" :: rest) = .done { st with query := st.query ++ rest }) ∧
    parseArgs ["hello", "--ai", "--json"] =
      .ok ⟨"search", "hello --ai --json", 10, 1, "stars", false, false⟩ :=
  ⟨scanLoop_nonflag, scanLoop_dashdash, by decide⟩

/-- C5 (witness): the non-flag halt applied at token `hello`. -/
theorem c5_first_nonflag_halts_witness :
    pyStartsWith "hello" "-" = false ∧
    scanLoop {} ["hello", "--ai"] =
      .done { ({} : ScanState) with query := ({} : ScanState).query ++ ["hello", "--ai"] } :=
  ⟨by decide, c5_first_nonflag_halts.1 {} "hello" ["--ai"] (by decide)⟩

/-- C6: every limit between 1 and 100 inclusive is accepted verbatim;
`0`, `101` and every string `int()` rejects die with a usage error, and a
usage error carries exit status 2. -/
theorem c6_limit_range :
    (∀ L : Nat, 1 ≤ L → L ≤ 100 →
        parseArgs ["--limit", toString L, "q"] =
          .ok ⟨"search", "q", (L : Int), 1, "stars", false, false⟩) ∧
    parseArgs ["--limit", "0", "q"] = .usageError "--limit must be 1-100 (got: 0)" ∧
    parseArgs ["--limit", "101", "q"] = .usageError "--limit must be 1-100 (got: 101)" ∧
    (∀ s : String, pyIntOfString s = none →
        parseArgs ["--limit", s, "q"] =
          .usageError s!"--limit must be a number (got: {s})") ∧
    (∀ m : String, (ParseResult.usageError m).exitCode = some 2) := by
  refine ⟨?_, by decide, by decide, ?_, fun m => rfl⟩
  · have key : ∀ L : Nat, L < 101 → 1 ≤ L →
        parseArgs ["--limit", toString L, "q"] =
          .ok ⟨"search", "q", (L : Int), 1, "stars", false, false⟩ := by decide
    intro L h1 h2
    exact key L (by omega) h1
  · intro s hs
    have hscan : scanLoop {} ["--limit", s, "q"] =
        .done ⟨"search", some s, none, none, false, false, ["q"]⟩ := by
      rw [scanLoop.eq_def]
      simp only [List.cons.injEq, String.reduceEq, decide_False, Bool.or_self, Bool.false_eq_true,
        if_false, reduceIte]
      rw [scanLoop_nonflag _ "q" [] (by decide)]
      rfl
    rw [parseArgs_done hscan]
    simp [validate, limitStep, hs]

/-- C6 (witness): the range statement applied at 50 and the non-numeric
statement applied at `abc`. -/
theorem c6_limit_range_witness :
    parseArgs ["--limit", "50", "q"] =
      .ok ⟨"search", "q", 50, 1, "stars", false, false⟩ ∧
    parseArgs ["--limit", "abc", "q"] =
      .usageError "--limit must be a number (got: abc)" :=
  ⟨c6_limit_range.1 50 (by decide) (by decide), c6_limit_range.2.2.2.1 "abc" (by decide)⟩

/-- C7 (counterexample): `--ai --limit abc q` has the ai flag set together
with the limit flag on a query token list, yet the message is the limit
format error, not the mode-mismatch message. -/
theorem c7_counterexample :
    parseArgs ["--ai", "--limit", "abc", "q"] =
      .usageError "--limit must be a number (got: abc)" ∧
    "--limit must be a number (got: abc)" ≠
      "--limit, --page, --sort do not apply to --ai search" := by
  constructor
  · decide
  · decide

/-- C7 (amended): in AI mode with any of limit/page/sort set and a query
present, parsing always fails with some usage error of exit status 2 —
the keyword-only flags are never silently ignored — and the message is the
mode-mismatch one whenever the other values pass their own validation. -/
theorem c7_ai_mode_flags_rejected (argv : List String) (st : ScanState)
    (hscan : scanLoop {} argv = .done st) (hq : st.query ≠ [])
    (hm : st.mode = "ai")
    (hset : (st.limit.isSome || st.page.isSome || st.sort.isSome) = true) :
    (∃ m, parseArgs argv = .usageError m ∧ (ParseResult.usageError m).exitCode = some 2) ∧
    ((st.json && st.plain) = false → limitRangeOk st.limit → pageNumOk st.page →
      sortEnumOk st.sort →
      parseArgs argv = .usageError "--limit, --page, --sort do not apply to --ai search") := by
  rw [parseArgs_done hscan]
  constructor
  · obtain ⟨m, hm2⟩ := validate_ai_conflict st hq hm hset
    exact ⟨m, hm2, rfl⟩
  · intro hjp hl hp hs
    exact validate_ai_conflict_msg st hq hm hset hjp hl hp hs

/-- C7 (witness): the amended statement applied at `--ai --limit 5 q`. -/
theorem c7_ai_mode_flags_rejected_witness :
    parseArgs ["--ai", "--limit", "5", "q"] =
      .usageError "--limit, --page, --sort do not apply to --ai search" :=
  (c7_ai_mode_flags_rejected ["--ai", "--limit", "5", "q"]
      ⟨"ai", some "5", none, none, false, false, ["q"]⟩
      (by decide) (by decide) rfl (by decide)).2 rfl
    ⟨5, by decide, by decide, by decide⟩ trivial trivial

/-- C9: a parse whose scan collected query tokens and left every option flag
unset is accepted with limit 10, page 1, sort "stars" and both output
toggles off (the human format). -/
theorem c9_defaults (argv : List String) (st : ScanState)
    (hscan : scanLoop {} argv = .done st) (hq : st.query ≠ [])
    (hl : st.limit = none) (hp : st.page = none) (hs : st.sort = none)
    (hj : st.json = false) (hpl : st.plain = false) :
    parseArgs argv =
      .ok ⟨st.mode, String.intercalate " " st.query, 10, 1, "stars", false, false⟩ := by
  rw [parseArgs_done hscan]
  exact validate_defaults st hq hl hp hs hj hpl

/-- C9 (witness): the defaults applied at `react testing`. -/
theorem c9_defaults_witness :
    parseArgs ["react", "testing"] =
      .ok ⟨"search", String.intercalate " " ["react", "testing"], 10, 1, "stars", false, false⟩ :=
  c9_defaults ["react", "testing"]
    ⟨"search", none, none, none, false, false, ["react", "testing"]⟩
    (by decide) (by decide) rfl rfl rfl rfl rfl

/-- C10: sourcing the dotfile never overwrites an environment variable that
is already present (its value is unchanged afterwards, the recognized key
included); a binding can change only if the name was absent; and the
credential resolver's returned environment preserves every pre-existing
binding. -/
theorem c10_no_overwrite :
    (∀ (env : Env) (lines : List String) (k v : String),
        envGet env k = some v → envGet (loadEnvFile env lines) k = some v) ∧
    (∀ (env : Env) (lines : List String) (k : String),
        envGet (loadEnvFile env lines) k ≠ envGet env k → envGet env k = none) ∧
    (∀ (env : Env) (dotfile : Option (List String)) (key : String) (env2 : Env)
        (k v : String),
        getApiKey env dotfile = .ok key env2 → envGet env k = some v →
          envGet env2 k = some v) := by
  refine ⟨fun env lines k v h => loadEnvFile_preserves lines h, ?_, ?_⟩
  · intro env lines k hne
    cases hk : envGet env k with
    | none => rfl
    | some v => exact absurd (loadEnvFile_preserves lines hk) (hk ▸ hne)
  · intro env dotfile key env2 k v hok h
    unfold getApiKey at hok
    dsimp only at hok
    split at hok
    · injection hok with h1 h2
      rw [← h2]
      exact h
    · split at hok
      · injection hok with h1 h2
        cases dotfile with
        | none =>
          dsimp only at h2
          rw [← h2]
          exact h
        | some lines =>
          dsimp only at h2
          rw [← h2]
          exact loadEnvFile_preserves lines h
      · injection hok

/-- C10 (witness): a pre-existing `SKILLSMP_API_KEY` survives sourcing a
dotfile that re-assigns it. -/
theorem c10_no_overwrite_witness :
    envGet (loadEnvFile [("SKILLSMP_API_KEY", "keep")]
      ["SKILLSMP_API_KEY=other", "NEW_VAR=1"]) "SKILLSMP_API_KEY" = some "keep" :=
  c10_no_overwrite.1 [("SKILLSMP_API_KEY", "keep")] ["SKILLSMP_API_KEY=other", "NEW_VAR=1"]
    "SKILLSMP_API_KEY" "keep" (by decide)

end Skillsmp
